import Mathlib

/-!
Verification of the fwupd firmware-update core against its specification.

The development shallowly embeds two device drivers:

* the Goodix fingerprint USB driver (`src/plugins/goodix-fp/fu-goodixfp-device.c`):
  packetized transport receive loop, CRC rejection, chunked firmware write;
* the Parade LSPCON I2C driver (`src/unnamed/part_001`,
  `fu-parade-lspcon-device.c`): register polling, page-window address guard,
  and the partitioned flash write/verify/commit sequence.

External I/O (USB bulk transfers, I2C transactions) is modelled by explicit
oracles giving the outcome of each operation, so every definition is an
executable function of its inputs and the oracle.
-/

/-- Error values produced by the embedded code, mirroring the GError
domains and codes used in the C source.  `timedOut` carries the last
observed register value, as the C code formats it into the message. -/
inductive GErr where
  | notSupported (msg : String)
  | write (msg : String)
  | internal (msg : String)
  | timedOut (lastValue : Nat)
  | transfer (msg : String)
deriving DecidableEq, Repr

/-! ## Goodix packetized transport: receive loop

The helpers `gx_proto_parse_header`, `gx_proto_crc32_calc` and
`gx_proto_parse_body` live in `fu-goodixfp-common.c`, which is not among the
provided sources; the receive loop treats them as black boxes, so they are
parameters of the model and the theorems quantify over them. -/

/-- Header of a goodix protocol package as far as the receive loop in
`goodixfp_device_cmd_recv` inspects it: the first command byte and the
declared payload length (fields `cmd0` and `len` of `pack_header`). -/
structure PackHeader where
  cmd0 : Nat
  cmd1 : Nat
  len : Nat
deriving DecidableEq, Repr

/-- Reads 4 bytes little-endian starting at `off`; `none` when the list is
too short (the C code would read past the received data, which the model
treats as a failed comparison). -/
def readLE32 (l : List Nat) (off : Nat) : Option Nat :=
  match l.get? off, l.get? (off + 1), l.get? (off + 2), l.get? (off + 3) with
  | some b0, some b1, some b2, some b3 =>
      some (b0 + b1 * 256 + b2 * 65536 + b3 * 16777216)
  | _, _, _, _ => none

/-- Parameters of the receive loop that come from `fu-goodixfp-common.c`
(not under the provided sources): the header size `PACKAGE_HEADER_SIZE`,
the acknowledgement command code `GX_CMD_ACK`, and the three helper
functions.  `parseBody` returns the parsed response of abstract type `α`
(the C code fills a `gxfp_cmd_response_t` out-parameter). -/
structure RecvParams (α : Type) where
  hdrSize : Nat
  ackCmd : Nat
  parseHeader : List Nat → Option PackHeader
  crc32 : List Nat → Nat
  parseBody : Nat → List Nat → Option α

/-- Model of `goodixfp_device_cmd_recv`.  The input list gives the outcome
of each successive bulk IN transfer: `none` is a failed transfer,
`some bytes` a successful read of `bytes` (zero-length reads are the
keep-alive packages).  An exhausted input list is a transport timeout on
the next read.  Mirrors the C control flow: skip zero-length reads, parse
the header, check the trailing little-endian CRC32 over header plus
payload, parse the body, and loop past ACK frames only when the caller
awaits a data reply. -/
def goodixfp_device_cmd_recv {α : Type} (p : RecvParams α) (dataReply : Bool) :
    List (Option (List Nat)) → Except GErr α
  | [] => .error (.transfer "failed to reply")
  | none :: _ => .error (.transfer "failed to reply")
  | some bytes :: rest =>
    if bytes.length = 0 then
      goodixfp_device_cmd_recv p dataReply rest
    else
      match p.parseHeader bytes with
      | none => .error (.internal "Invalid value")
      | some h =>
        if readLE32 bytes (p.hdrSize + h.len) =
            some (p.crc32 (bytes.take (p.hdrSize + h.len))) then
          match p.parseBody h.cmd0 ((bytes.drop p.hdrSize).take h.len) with
          | none => .error (.internal "Invalid value")
          | some resp =>
            if h.cmd0 = p.ackCmd ∧ dataReply = true then
              goodixfp_device_cmd_recv p dataReply rest
            else
              .ok resp
        else .error (.internal "Invalid checksum")

/-- C5: on receive, the CRC32 recomputed over header plus payload is
compared against the trailing 4 little-endian bytes of the frame; whenever
the two differ the frame is rejected and the exchange fails with the
checksum error, regardless of what follows on the wire. -/
theorem goodixfp_recv_crc_mismatch_rejects {α : Type} (p : RecvParams α)
    (dataReply : Bool) (bytes : List Nat) (rest : List (Option (List Nat)))
    (h : PackHeader) (w : Nat)
    (hne : bytes ≠ [])
    (hparse : p.parseHeader bytes = some h)
    (htrail : readLE32 bytes (p.hdrSize + h.len) = some w)
    (hdiff : w ≠ p.crc32 (bytes.take (p.hdrSize + h.len))) :
    goodixfp_device_cmd_recv p dataReply (some bytes :: rest) =
      .error (.internal "Invalid checksum") := by
  have hlen : ¬ bytes.length = 0 := by
    simpa [List.length_eq_zero] using hne
  have hcrc : ¬ (readLE32 bytes (p.hdrSize + h.len) =
      some (p.crc32 (bytes.take (p.hdrSize + h.len)))) := by
    rw [htrail]
    intro hc
    exact hdiff (Option.some.inj hc)
  simp [goodixfp_device_cmd_recv, hlen, hparse, hcrc]

/-- Concrete parameter set exercising the receive-loop theorems: header of
one byte carrying the command code, zero-length payloads, a constant CRC. -/
def recvParamsW : RecvParams Nat where
  hdrSize := 1
  ackCmd := 7
  parseHeader := fun l => some { cmd0 := l.headD 0, cmd1 := 0, len := 0 }
  crc32 := fun _ => 0
  parseBody := fun c _ => some c

/-- Witness for C5: a frame whose trailing little-endian word is 1 while
the recomputed CRC32 is 0 is rejected with the checksum error. -/
theorem goodixfp_recv_crc_mismatch_rejects_witness :
    goodixfp_device_cmd_recv recvParamsW true [some [9, 1, 0, 0, 0]] =
      .error (.internal "Invalid checksum") :=
  goodixfp_recv_crc_mismatch_rejects recvParamsW true [9, 1, 0, 0, 0] []
    { cmd0 := 9, cmd1 := 0, len := 0 } 1
    (by decide) (by rfl) (by rfl) (by decide)

/-- C7: in the receive loop a zero-length read is skipped and the loop
retries; a frame that parses whose command is the acknowledgement code is
discarded exactly when the caller awaits a data reply; otherwise the
parsed response is returned — in particular three consecutive zero-length
reads followed by a valid frame yield that frame, not a timeout. -/
theorem goodixfp_recv_loop_behaviour {α : Type} (p : RecvParams α)
    (dataReply : Bool) (rest : List (Option (List Nat))) :
    (goodixfp_device_cmd_recv p dataReply (some [] :: rest) =
      goodixfp_device_cmd_recv p dataReply rest)
    ∧ ∀ (bytes : List Nat) (h : PackHeader) (resp : α),
        bytes ≠ [] →
        p.parseHeader bytes = some h →
        readLE32 bytes (p.hdrSize + h.len) =
          some (p.crc32 (bytes.take (p.hdrSize + h.len))) →
        p.parseBody h.cmd0 ((bytes.drop p.hdrSize).take h.len) = some resp →
        ((h.cmd0 = p.ackCmd ∧ dataReply = true →
            goodixfp_device_cmd_recv p dataReply (some bytes :: rest) =
              goodixfp_device_cmd_recv p dataReply rest)
         ∧ (¬ (h.cmd0 = p.ackCmd ∧ dataReply = true) →
            goodixfp_device_cmd_recv p dataReply (some bytes :: rest) =
              .ok resp)
         ∧ (¬ (h.cmd0 = p.ackCmd ∧ dataReply = true) →
            goodixfp_device_cmd_recv p dataReply
                [some [], some [], some [], some bytes] = .ok resp)) := by
  constructor
  · simp [goodixfp_device_cmd_recv]
  · intro bytes h resp hne hparse hcrc hbody
    have hlen : ¬ bytes.length = 0 := by
      simpa [List.length_eq_zero] using hne
    refine ⟨fun hack => ?_, fun hack => ?_, fun hack => ?_⟩
    · obtain ⟨hc, hd⟩ := hack
      subst hd
      rw [hc] at hbody
      simp [goodixfp_device_cmd_recv, hlen, hparse, hcrc, hbody, hc]
    · simp [goodixfp_device_cmd_recv, hlen, hparse, hcrc, hbody, hack]
    · simp [goodixfp_device_cmd_recv, hlen, hparse, hcrc, hbody, hack]

/-- Witness for C7: three zero-length reads then a valid non-ACK frame
return the parsed content of that frame. -/
theorem goodixfp_recv_loop_behaviour_witness :
    goodixfp_device_cmd_recv recvParamsW true
      [some [], some [], some [], some [5, 0, 0, 0, 0]] = .ok 5 :=
  ((goodixfp_recv_loop_behaviour recvParamsW true []).2
      [5, 0, 0, 0, 0] { cmd0 := 5, cmd1 := 0, len := 0 } 5
      (by decide) (by rfl) (by rfl) (by rfl)).2.2 (by decide)

/-! ## Parade LSPCON: register polling (`lspcon_poll_register`) -/

/-- Loop body of `lspcon_poll_register`.  `read k` is the outcome of the
k-th `lspcon_read_register` call; `fuel` is the number of further
iterations the 10-second wall-clock deadline still permits (the C code
re-checks the timer after each failed comparison).  One read always
happens, matching the do-while structure. -/
def lspcon_poll_register_loop (read : Nat → Except GErr Nat)
    (mask expected : Nat) : Nat → Nat → Except GErr Unit
  | k, fuel =>
    match read k with
    | .error e => .error e
    | .ok v =>
      if v &&& mask = expected then .ok ()
      else
        match fuel with
        | 0 => .error (.timedOut v)
        | fuel + 1 => lspcon_poll_register_loop read mask expected (k + 1) fuel

/-- Model of `lspcon_poll_register`: poll from the first read with the
given deadline fuel. -/
def lspcon_poll_register (read : Nat → Except GErr Nat)
    (mask expected fuel : Nat) : Except GErr Unit :=
  lspcon_poll_register_loop read mask expected 0 fuel

/-- Helper: the poll loop succeeds at the first read whose masked value
matches, provided it lies within the deadline. -/
theorem lspcon_poll_loop_first_match (read : Nat → Except GErr Nat)
    (mask expected v : Nat) :
    ∀ (fuel k i : Nat), k ≤ i → i ≤ k + fuel →
    (∀ j, k ≤ j → j < i → ∃ w, read j = .ok w ∧ ¬ w &&& mask = expected) →
    read i = .ok v → v &&& mask = expected →
    lspcon_poll_register_loop read mask expected k fuel = .ok () := by
  intro fuel
  induction fuel with
  | zero =>
    intro k i hki hik hb hr hm
    have hik0 : i = k := le_antisymm hik hki
    subst hik0
    simp [lspcon_poll_register_loop, hr, hm]
  | succ f ih =>
    intro k i hki hik hb hr hm
    by_cases hik0 : i = k
    · subst hik0
      simp [lspcon_poll_register_loop, hr, hm]
    · have hk : k < i := lt_of_le_of_ne hki (Ne.symm hik0)
      obtain ⟨w, hw, hwne⟩ := hb k le_rfl hk
      rw [lspcon_poll_register_loop, hw]
      simp only [hwne, if_false]
      exact ih (k + 1) i hk (by omega)
        (fun j hj1 hj2 => hb j (by omega) hj2) hr hm

/-- Helper: when no read within the deadline matches, the poll loop times
out carrying the value observed on the last iteration. -/
theorem lspcon_poll_loop_timeout (read : Nat → Except GErr Nat)
    (mask expected v : Nat) :
    ∀ (fuel k : Nat),
    (∀ j, k ≤ j → j ≤ k + fuel → ∃ w, read j = .ok w ∧ ¬ w &&& mask = expected) →
    read (k + fuel) = .ok v →
    lspcon_poll_register_loop read mask expected k fuel =
      .error (.timedOut v) := by
  intro fuel
  induction fuel with
  | zero =>
    intro k hb hr
    simp only [Nat.add_zero] at hr
    obtain ⟨w, hw, hwne⟩ := hb k le_rfl (by omega)
    have hwv : w = v := by
      rw [hr] at hw
      exact (Except.ok.inj hw).symm
    subst hwv
    rw [lspcon_poll_register_loop, hr]
    simp [hwne]
  | succ f ih =>
    intro k hb hr
    obtain ⟨w, hw, hwne⟩ := hb k le_rfl (by omega)
    rw [lspcon_poll_register_loop, hw]
    simp only [hwne, if_false]
    have hr1 : read (k + 1 + f) = .ok v := by
      rw [show k + 1 + f = k + (f + 1) by omega]
      exact hr
    exact ih (k + 1) (fun j hj1 hj2 => hb j (by omega) (by omega)) hr1

/-- C8: `lspcon_poll_register` succeeds on the first read whose value
ANDed with the mask equals the expected value, and when no read within the
deadline satisfies the condition it returns a timeout error carrying the
last observed register value. -/
theorem lspcon_poll_register_spec (read : Nat → Except GErr Nat)
    (mask expected fuel : Nat) :
    (∀ i v, i ≤ fuel →
      (∀ j, j < i → ∃ w, read j = .ok w ∧ ¬ w &&& mask = expected) →
      read i = .ok v → v &&& mask = expected →
      lspcon_poll_register read mask expected fuel = .ok ())
    ∧ (∀ v,
      (∀ j, j ≤ fuel → ∃ w, read j = .ok w ∧ ¬ w &&& mask = expected) →
      read fuel = .ok v →
      lspcon_poll_register read mask expected fuel =
        .error (.timedOut v)) := by
  constructor
  · intro i v hif hb hr hm
    exact lspcon_poll_loop_first_match read mask expected v fuel 0 i
      (Nat.zero_le i) (by omega) (fun j _ hj => hb j hj) hr hm
  · intro v hb hr
    exact lspcon_poll_loop_timeout read mask expected v fuel 0
      (fun j _ hj => hb j (by omega)) (by simpa using hr)

/-- Witness for C8: with reads returning 0, 1, 2, ... and expectation
mask 255 value 2, the poll succeeds; with reads stuck at 5 and
expectation 7, it times out carrying 5. -/
theorem lspcon_poll_register_spec_witness :
    lspcon_poll_register (fun k => .ok k) 255 2 5 = .ok ()
    ∧ lspcon_poll_register (fun _ => .ok 5) 255 7 3 =
        .error (.timedOut 5) :=
  ⟨(lspcon_poll_register_spec (fun k => .ok k) 255 2 5).1 2 2 (by omega)
      (fun j hj => ⟨j, rfl, by interval_cases j <;> decide⟩) rfl (by decide),
   (lspcon_poll_register_spec (fun _ => .ok 5) 255 7 3).2 5
      (fun j _ => ⟨5, rfl, by decide⟩) rfl⟩

/-! ## Goodix: chunked firmware write (`fu_goodixfp_device_write_firmware`) -/

/-- Transfer block size `GX_FLASH_TRANSFER_BLOCK_SIZE` from the device
source. -/
def GX_FLASH_TRANSFER_BLOCK_SIZE : Nat := 1000

/-- Modelled from the spec: `fu_chunk_array_new_from_bytes` (fu-chunk.c is
not among the provided sources); section 4.6 of the spec says the chunker
produces ceil(len / size) chunks covering the image in order, the final
chunk shorter when the length is not evenly divisible. -/
def chunkList (sz : Nat) (l : List Nat) : List (List Nat) :=
  if h : l = [] ∨ sz = 0 then []
  else l.take sz :: chunkList sz (l.drop sz)
termination_by l.length
decreasing_by
  simp only [List.length_drop]
  push_neg at h
  have hlen : 0 < l.length := List.length_pos.mpr h.1
  omega

/-- Modelled from the spec: goodix command code `GX_CMD_UPGRADE` (value
from fu-goodixfp-common.h, not among the provided sources; the claims do
not depend on the value). -/
def GX_CMD_UPGRADE : Nat := 0x80

/-- Modelled from the spec: goodix command code `GX_CMD_UPGRADE_INIT`
(value placeholder, see `GX_CMD_UPGRADE`). -/
def GX_CMD_UPGRADE_INIT : Nat := 0x00

/-- Modelled from the spec: goodix command code `GX_CMD_UPGRADE_DATA`
(value placeholder, see `GX_CMD_UPGRADE`). -/
def GX_CMD_UPGRADE_DATA : Nat := 0x01

/-- Arguments of one `fu_goodixfp_device_cmd_xfer` call made by the write
loop: command bytes, end-of-package byte, payload, and whether the receive
side waits for a data reply. -/
structure XferEvent where
  cmd0 : Nat
  cmd1 : Nat
  pkg_eop : Nat
  payload : List Nat
  waitDataReply : Bool
deriving DecidableEq, Repr

/-- Transfer issued for chunk `i` of `n` by the write loop: the C code
starts with `pkg_eop = 0x80` and `wait_data_reply = FALSE` and switches
both for the last chunk. -/
def gxChunkEv (n i : Nat) (c : List Nat) : XferEvent :=
  { cmd0 := GX_CMD_UPGRADE
    cmd1 := GX_CMD_UPGRADE_DATA
    pkg_eop := if i = n - 1 then 0 else 0x80
    payload := c
    waitDataReply := decide (i = n - 1) }

/-- Chunk loop of `fu_goodixfp_device_write_firmware`: issues one transfer
per chunk, records progress `(i, n)` after each successful transfer, and
stops with a write error when a transfer fails (`ok i` is the outcome of
the transfer for chunk `i`). -/
def goodixWriteLoop (ok : Nat → Bool) (n : Nat) :
    Nat → List (List Nat) →
    List XferEvent × List (Nat × Nat) × Except GErr Unit
  | _, [] => ([], [], .ok ())
  | i, c :: cs =>
    let ev := gxChunkEv n i c
    if ok i then
      let r := goodixWriteLoop ok n (i + 1) cs
      (ev :: r.1, (i, n) :: r.2.1, r.2.2)
    else
      ([ev], [], .error (.write "failed to write"))

/-- Transfer issued by `fu_goodixfp_device_update_init` before the chunk
loop: upgrade-init command, empty payload, end-of-package 0, waiting for a
data reply. -/
def gxInitEv : XferEvent :=
  { cmd0 := GX_CMD_UPGRADE
    cmd1 := GX_CMD_UPGRADE_INIT
    pkg_eop := 0
    payload := []
    waitDataReply := true }

/-- Model of `fu_goodixfp_device_write_firmware`: runs update-init
(outcome `initOk`, covering both the transfer and the zero result check),
then transmits the firmware in `GX_FLASH_TRANSFER_BLOCK_SIZE`-byte chunks.
Returns the transfers issued, the progress reports, and the result. -/
def fu_goodixfp_device_write_firmware (initOk : Bool) (ok : Nat → Bool)
    (fw : List Nat) :
    List XferEvent × List (Nat × Nat) × Except GErr Unit :=
  let chs := chunkList GX_FLASH_TRANSFER_BLOCK_SIZE fw
  if initOk then
    let r := goodixWriteLoop ok chs.length 0 chs
    (gxInitEv :: r.1, r.2.1, r.2.2)
  else
    ([gxInitEv], [], .error (.write "failed to init update"))

/-- Helper: the chunk loop under an all-successful transfer oracle emits
one transfer and one progress report per chunk, in order. -/
theorem goodixWriteLoop_allOk (n : Nat) :
    ∀ (cs : List (List Nat)) (i : Nat),
    goodixWriteLoop (fun _ => true) n i cs =
      ((List.range cs.length).map (fun k => gxChunkEv n (i + k) (cs.getD k [])),
       (List.range cs.length).map (fun k => (i + k, n)),
       .ok ()) := by
  intro cs
  induction cs with
  | nil => intro i; simp [goodixWriteLoop]
  | cons c cs ih =>
    intro i
    rw [goodixWriteLoop]
    simp only [ih (i + 1), if_true]
    simp only [List.length_cons, List.range_succ_eq_map, List.map_cons,
      List.map_map, Function.comp, Prod.mk.injEq]
    refine ⟨?_, ?_, trivial⟩
    · congr 1
      simp only [List.map_inj_left, List.mem_range]
      intro a ha
      have hik : i + 1 + a = i + (a + 1) := by omega
      rw [hik]
      simp [Function.comp, List.getD_cons_succ]
    · congr 1
      simp only [List.map_inj_left, List.mem_range]
      intro a ha
      have hik : i + 1 + a = i + (a + 1) := by omega
      rw [hik]
      simp [Function.comp, List.getD_cons_succ]

/-- C10: with every transfer succeeding, the goodix write issues the init
transfer followed by exactly one transfer per chunk in order, where every
chunk before the last carries end-of-package byte 0x80 without waiting for
a data reply, the final chunk alone carries end-of-package 0 and waits for
a data reply, and the progress reported after chunk i is (i, total). -/
theorem goodixfp_write_firmware_chunk_protocol (fw : List Nat) :
    (fu_goodixfp_device_write_firmware true (fun _ => true) fw =
      (gxInitEv ::
        (List.range (chunkList GX_FLASH_TRANSFER_BLOCK_SIZE fw).length).map
          (fun i => gxChunkEv (chunkList GX_FLASH_TRANSFER_BLOCK_SIZE fw).length
            i ((chunkList GX_FLASH_TRANSFER_BLOCK_SIZE fw).getD i [])),
       (List.range (chunkList GX_FLASH_TRANSFER_BLOCK_SIZE fw).length).map
          (fun i => (i, (chunkList GX_FLASH_TRANSFER_BLOCK_SIZE fw).length)),
       .ok ()))
    ∧ ∀ (n i : Nat) (c : List Nat), i < n →
        ((gxChunkEv n i c).pkg_eop = if i = n - 1 then 0 else 0x80)
        ∧ ((gxChunkEv n i c).waitDataReply = true ↔ i = n - 1)
        ∧ ((gxChunkEv n i c).pkg_eop = 0 ↔ i = n - 1)
        ∧ (gxChunkEv n i c).payload = c := by
  constructor
  · simp [fu_goodixfp_device_write_firmware, goodixWriteLoop_allOk]
  · intro n i c _
    by_cases hlast : i = n - 1
    · simp [gxChunkEv, hlast]
    · simp [gxChunkEv, hlast]

/-- Witness for C10: for a two-chunk schedule the first chunk uses
end-of-package 0x80 and does not wait for a data reply. -/
theorem goodixfp_write_firmware_chunk_protocol_witness :
    ((gxChunkEv 2 0 [3]).pkg_eop = if 0 = 2 - 1 then 0 else 0x80)
    ∧ ((gxChunkEv 2 0 [3]).waitDataReply = true ↔ 0 = 2 - 1)
    ∧ ((gxChunkEv 2 0 [3]).pkg_eop = 0 ↔ 0 = 2 - 1)
    ∧ (gxChunkEv 2 0 [3]).payload = [3] :=
  (goodixfp_write_firmware_chunk_protocol []).2 2 0 [3] (by decide)

/-! ## Parade LSPCON: partitioned flash write (`fu_parade_lspcon_device_write_firmware`)

The model follows the function statement by statement; each fallible helper
call (register write, SPI command, erase, write, read-back) is one step
whose outcome is a field of the oracle, and the trace records the step
arguments exactly as the C code passes them. -/

/-- Flash block and partition size `FLASH_BLOCK_SIZE` (0x10000). -/
def FLASH_BLOCK_SIZE : Nat := 0x10000

/-- Register address `REG_ADDR_WR_PROTECT`. -/
def REG_ADDR_WR_PROTECT : Nat := 0xb3

/-- Value `WR_PROTECT_DISABLE` written to deassert flash write protect. -/
def WR_PROTECT_DISABLE : Nat := 0x10

/-- Device progress status values set during the write
(`FWUPD_STATUS_DEVICE_ERASE` / `WRITE` / `VERIFY`). -/
inductive DevStatus where
  | erase
  | write
  | verify
deriving DecidableEq, Repr

/-- Steps performed by the write path, at the granularity of the helper
functions the C code calls, with the arguments it passes. -/
inductive WfEvent where
  | regWrite (reg val : Nat)
  | spiCmd (cmd : List Nat)
  | waitReady
  | eraseBlock (base size : Nat)
  | flashWrite (base : Nat) (data : List Nat)
  | flashRead (base len : Nat)
  | setStatus (s : DevStatus)
deriving DecidableEq, Repr

/-- Target partition chosen by `fu_parade_lspcon_device_write_firmware`:
partition 2 when the active partition is 1, otherwise partition 1. -/
def targetPartition (active : Nat) : Nat :=
  if active = 1 then 2 else 1

/-- Flag-partition record `flag_data`: the C initialiser is
`{0x55, 0xaa, target_partition, 1 - target_partition}` with `guint8`
elements, so the fourth byte is `1 - target_partition` reduced modulo
256. -/
def flag_data (active : Nat) : List Nat :=
  [0x55, 0xaa, targetPartition active,
   ((1 - (targetPartition active : Int)) % 256).toNat]

/-- Outcomes of the fallible steps of one `write_firmware` run, in program
order, together with the bytes the two verification read-backs observe
(`readTargetByte j` is byte `j` of the target-partition read-back,
`readFlagByte j` byte `j` of the flag-partition read-back). -/
structure WfOracle where
  wrProtectDisableOk : Bool
  srVolatileOk : Bool
  srDisableBpOk : Bool
  waitReadyOk : Bool
  eraseTargetOk : Bool
  writeTargetOk : Bool
  readTargetOk : Bool
  readTargetByte : Nat → Nat
  eraseFlagOk : Bool
  writeFlagOk : Bool
  readFlagOk : Bool
  readFlagByte : Nat → Nat
  srVolatile2Ok : Bool
  srEnableBpOk : Bool
  wrProtectEnableOk : Bool

/-- One fallible step of the write path: the events recorded when the
step runs, the outcome of the step, and the error it fails with. -/
structure WfStep where
  evs : List WfEvent
  ok : Bool
  err : GErr
deriving DecidableEq, Repr

/-- Runs a list of steps in order: each step appends its events to the
trace, then either continues (outcome true) or stops with the step error
(outcome false).  Mirrors the early-return chain of the C function. -/
def runSteps : List WfStep → List WfEvent → Except GErr Unit × List WfEvent
  | [], acc => (.ok (), acc)
  | s :: rest, acc =>
    if s.ok = true then runSteps rest (acc ++ s.evs)
    else (.error s.err, acc ++ s.evs)

/-- Steps of `fu_parade_lspcon_device_write_firmware` after the size
check, in program order: write-protect deassert, the two volatile
status-register commands and their completion wait, erase/write/verify of
the target partition (the verify comparison is the step after the
read-back, failing with the mismatch error), erase/write/verify of the
flag partition, and the re-lock sequence. -/
def wfSteps (o : WfOracle) (active : Nat) (fw : List Nat) : List WfStep :=
  let ta := targetPartition active <<< 16
  [⟨[.regWrite REG_ADDR_WR_PROTECT WR_PROTECT_DISABLE],
    o.wrProtectDisableOk, .transfer "failed to set I2C slave address"⟩,
   ⟨[.spiCmd [0x50]], o.srVolatileOk, .transfer "failed to transmit command"⟩,
   ⟨[.spiCmd [0x01, 0x80, 0x00]], o.srDisableBpOk,
    .transfer "failed to transmit command"⟩,
   ⟨[.waitReady], o.waitReadyOk,
    .transfer "flash did not become ready within 10 seconds"⟩,
   ⟨[.setStatus .erase, .eraseBlock ta fw.length], o.eraseTargetOk,
    .transfer "failed to erase flash partition"⟩,
   ⟨[.setStatus .write, .flashWrite ta fw], o.writeTargetOk,
    .transfer "failed to write firmware to partition"⟩,
   ⟨[.setStatus .verify, .flashRead ta fw.length], o.readTargetOk,
    .transfer "failed to read flash"⟩,
   ⟨[], decide ((List.range fw.length).map o.readTargetByte = fw),
    .write "flash contents do not match written data"⟩,
   ⟨[.setStatus .erase, .eraseBlock 0 FLASH_BLOCK_SIZE], o.eraseFlagOk,
    .transfer "failed to erase flag partition"⟩,
   ⟨[.setStatus .write, .flashWrite 0 (flag_data active)], o.writeFlagOk,
    .transfer "failed to write flag partition"⟩,
   ⟨[.setStatus .verify, .flashRead 0 (flag_data active).length],
    o.readFlagOk, .transfer "failed to read flag partition"⟩,
   ⟨[], decide ((List.range (flag_data active).length).map o.readFlagByte =
      flag_data active),
    .write "flag partition contents do not match written data"⟩,
   ⟨[.spiCmd [0x50]], o.srVolatile2Ok,
    .transfer "failed to transmit command"⟩,
   ⟨[.spiCmd [0x01, 0x8c, 0x00]], o.srEnableBpOk,
    .transfer "failed to transmit command"⟩,
   ⟨[.regWrite REG_ADDR_WR_PROTECT 0], o.wrProtectEnableOk,
    .transfer "failed to set I2C slave address"⟩]

/-- Model of `fu_parade_lspcon_device_write_firmware`: size check, then
the step sequence of `wfSteps`.  Returns the result and the trace of steps
performed (a step is recorded when its helper is invoked, before its
outcome is known). -/
def fu_parade_lspcon_device_write_firmware (o : WfOracle) (active : Nat)
    (fw : List Nat) : Except GErr Unit × List WfEvent :=
  if fw.length ≠ FLASH_BLOCK_SIZE then
    (.error (.notSupported "invalid image size"), [])
  else
    runSteps (wfSteps o active fw) []

/-- Helper: events already in the accumulator stay in the final trace. -/
theorem mem_runSteps_of_mem_acc (e : WfEvent) :
    ∀ (steps : List WfStep) (acc : List WfEvent), e ∈ acc →
    e ∈ (runSteps steps acc).2 := by
  intro steps
  induction steps with
  | nil => intro acc h; simpa [runSteps] using h
  | cons s rest ih =>
    intro acc h
    rw [runSteps]
    split
    · exact ih (acc ++ s.evs) (List.mem_append_left _ h)
    · exact List.mem_append_left _ h

/-- Helper: a successful step unfolds to the remaining run with its events
appended. -/
theorem runSteps_cons_ok (s : WfStep) (rest : List WfStep)
    (acc : List WfEvent) (h : s.ok = true) :
    runSteps (s :: rest) acc = runSteps rest (acc ++ s.evs) := by
  rw [runSteps, if_pos h]

/-- Helper: the events of the first step always end up in the trace,
whatever its outcome. -/
theorem mem_runSteps_head (e : WfEvent) (s : WfStep) (rest : List WfStep)
    (acc : List WfEvent) (he : e ∈ acc ++ s.evs) :
    e ∈ (runSteps (s :: rest) acc).2 := by
  rw [runSteps]
  by_cases h : s.ok = true
  · rw [if_pos h]
    exact mem_runSteps_of_mem_acc _ _ _ he
  · rw [if_neg h]
    exact he

/-- Helper: every event of the final trace comes from the accumulator or
from the events of some step of the list. -/
theorem mem_acc_or_step_of_mem_runSteps (e : WfEvent) :
    ∀ (steps : List WfStep) (acc : List WfEvent),
    e ∈ (runSteps steps acc).2 →
    e ∈ acc ∨ ∃ s ∈ steps, e ∈ s.evs := by
  intro steps
  induction steps with
  | nil => intro acc h; exact Or.inl (by simpa [runSteps] using h)
  | cons s rest ih =>
    intro acc h
    rw [runSteps] at h
    split at h
    · rcases ih (acc ++ s.evs) h with hacc | ⟨s2, hs2, he⟩
      · rcases List.mem_append.mp hacc with h1 | h2
        · exact Or.inl h1
        · exact Or.inr ⟨s, List.mem_cons_self s rest, h2⟩
      · exact Or.inr ⟨s2, List.mem_cons_of_mem s hs2, he⟩
    · rcases List.mem_append.mp h with h1 | h2
      · exact Or.inl h1
      · exact Or.inr ⟨s, List.mem_cons_self s rest, h2⟩

/-- Helper: the target partition is 1 or 2, so its base address
`target_partition << 16` is never the flag-partition base 0. -/
theorem targetAddr_ne_zero (active : Nat) :
    targetPartition active <<< 16 ≠ 0 := by
  unfold targetPartition
  split <;> decide

/-- Partition acceptance check of `fu_parade_lspcon_device_reload`: the
probed active partition is rejected unless it lies in 1..3. -/
def reloadPartitionAccepted (p : Nat) : Bool :=
  !(p < 1 || p > 3)

/-- C4: a firmware buffer whose length differs from the expected partition
size 0x10000 makes `write_firmware` fail before performing any step at
all: the error is the size rejection and the trace is empty. -/
theorem lspcon_write_firmware_size_check (o : WfOracle) (active : Nat)
    (fw : List Nat) (h : fw.length ≠ FLASH_BLOCK_SIZE) :
    fu_parade_lspcon_device_write_firmware o active fw =
      (.error (.notSupported "invalid image size"), []) := by
  unfold fu_parade_lspcon_device_write_firmware
  rw [if_pos h]

/-- Oracle in which every step succeeds and both read-backs observe
zeroes. -/
def wfOracleAllOk : WfOracle where
  wrProtectDisableOk := true
  srVolatileOk := true
  srDisableBpOk := true
  waitReadyOk := true
  eraseTargetOk := true
  writeTargetOk := true
  readTargetOk := true
  readTargetByte := fun _ => 0
  eraseFlagOk := true
  writeFlagOk := true
  readFlagOk := true
  readFlagByte := fun _ => 0
  srVolatile2Ok := true
  srEnableBpOk := true
  wrProtectEnableOk := true

/-- Oracle in which every step succeeds but the target-partition read-back
observes ones, so a zero image fails verification. -/
def wfOracleMismatch : WfOracle :=
  { wfOracleAllOk with readTargetByte := fun _ => 1 }

/-- Witness for C4: the empty buffer is rejected with an empty trace. -/
theorem lspcon_write_firmware_size_check_witness :
    fu_parade_lspcon_device_write_firmware wfOracleAllOk 1 [] =
      (.error (.notSupported "invalid image size"), []) :=
  lspcon_write_firmware_size_check wfOracleAllOk 1 [] (by decide)

/-- C1: when the target-partition read-back differs from the source image,
`write_firmware` stops at the verification step with the mismatch error:
the trace ends at the verify read, the flag partition is neither erased
nor written, and no later step or rollback is performed. -/
theorem lspcon_write_firmware_verify_mismatch_stops (o : WfOracle)
    (active : Nat) (fw : List Nat)
    (hlen : fw.length = FLASH_BLOCK_SIZE)
    (h1 : o.wrProtectDisableOk = true) (h2 : o.srVolatileOk = true)
    (h3 : o.srDisableBpOk = true) (h4 : o.waitReadyOk = true)
    (h5 : o.eraseTargetOk = true) (h6 : o.writeTargetOk = true)
    (h7 : o.readTargetOk = true)
    (hmm : (List.range FLASH_BLOCK_SIZE).map o.readTargetByte ≠ fw) :
    fu_parade_lspcon_device_write_firmware o active fw =
      (.error (.write "flash contents do not match written data"),
       [.regWrite REG_ADDR_WR_PROTECT WR_PROTECT_DISABLE,
        .spiCmd [0x50],
        .spiCmd [0x01, 0x80, 0x00],
        .waitReady,
        .setStatus .erase,
        .eraseBlock (targetPartition active <<< 16) FLASH_BLOCK_SIZE,
        .setStatus .write,
        .flashWrite (targetPartition active <<< 16) fw,
        .setStatus .verify,
        .flashRead (targetPartition active <<< 16) FLASH_BLOCK_SIZE])
    ∧ (∀ d, WfEvent.flashWrite 0 d ∉
        (fu_parade_lspcon_device_write_firmware o active fw).2)
    ∧ (∀ sz, WfEvent.eraseBlock 0 sz ∉
        (fu_parade_lspcon_device_write_firmware o active fw).2) := by
  have heq : fu_parade_lspcon_device_write_firmware o active fw =
      (.error (.write "flash contents do not match written data"),
       [.regWrite REG_ADDR_WR_PROTECT WR_PROTECT_DISABLE,
        .spiCmd [0x50],
        .spiCmd [0x01, 0x80, 0x00],
        .waitReady,
        .setStatus .erase,
        .eraseBlock (targetPartition active <<< 16) FLASH_BLOCK_SIZE,
        .setStatus .write,
        .flashWrite (targetPartition active <<< 16) fw,
        .setStatus .verify,
        .flashRead (targetPartition active <<< 16) FLASH_BLOCK_SIZE]) := by
    unfold fu_parade_lspcon_device_write_firmware wfSteps
    simp [runSteps, hlen, h1, h2, h3, h4, h5, h6, h7, hmm]
  have hz : (0 : Nat) ≠ targetPartition active <<< 16 :=
    Ne.symm (targetAddr_ne_zero active)
  refine ⟨heq, fun d => ?_, fun sz => ?_⟩
  · rw [heq]
    simp [hz]
  · rw [heq]
    simp [hz]

/-- Witness for C1: a zero image against an all-ones read-back fails with
the mismatch error and never touches the flag partition. -/
theorem lspcon_write_firmware_verify_mismatch_stops_witness :
    (fu_parade_lspcon_device_write_firmware wfOracleMismatch 1
        (List.replicate FLASH_BLOCK_SIZE 0)).1 =
      .error (.write "flash contents do not match written data")
    ∧ ∀ d, WfEvent.flashWrite 0 d ∉
        (fu_parade_lspcon_device_write_firmware wfOracleMismatch 1
          (List.replicate FLASH_BLOCK_SIZE 0)).2 := by
  have hmm : (List.range FLASH_BLOCK_SIZE).map wfOracleMismatch.readTargetByte ≠
      List.replicate FLASH_BLOCK_SIZE 0 := by
    intro hcon
    have h1 : (1 : Nat) ∈
        (List.range FLASH_BLOCK_SIZE).map wfOracleMismatch.readTargetByte :=
      List.mem_map.mpr ⟨0, List.mem_range.mpr (by decide), rfl⟩
    rw [hcon] at h1
    exact absurd (List.eq_of_mem_replicate h1) (by decide)
  have h := lspcon_write_firmware_verify_mismatch_stops wfOracleMismatch 1
    (List.replicate FLASH_BLOCK_SIZE 0) (by simp) rfl rfl rfl rfl rfl rfl rfl hmm
  exact ⟨by rw [h.1], h.2.1⟩

/-- C2: a run that reaches the commit step writes to the flag partition
exactly the record [0x55, 0xAA, t, (1 - t) mod 256] for target partition
t, every flag-partition write in the trace carries that record, and for
target partition 2 the record is [0x55, 0xAA, 0x02, 0xFF] by unsigned
8-bit wraparound. -/
theorem lspcon_write_firmware_flag_record (o : WfOracle) (active : Nat)
    (fw : List Nat)
    (hlen : fw.length = FLASH_BLOCK_SIZE)
    (h1 : o.wrProtectDisableOk = true) (h2 : o.srVolatileOk = true)
    (h3 : o.srDisableBpOk = true) (h4 : o.waitReadyOk = true)
    (h5 : o.eraseTargetOk = true) (h6 : o.writeTargetOk = true)
    (h7 : o.readTargetOk = true)
    (hvr : (List.range FLASH_BLOCK_SIZE).map o.readTargetByte = fw)
    (h8 : o.eraseFlagOk = true) :
    (WfEvent.flashWrite 0
        [0x55, 0xaa, targetPartition active,
         ((1 - (targetPartition active : Int)) % 256).toNat] ∈
      (fu_parade_lspcon_device_write_firmware o active fw).2)
    ∧ (∀ d, WfEvent.flashWrite 0 d ∈
          (fu_parade_lspcon_device_write_firmware o active fw).2 →
        d = [0x55, 0xaa, targetPartition active,
             ((1 - (targetPartition active : Int)) % 256).toNat])
    ∧ (targetPartition active = 2 →
        [0x55, 0xaa, targetPartition active,
         ((1 - (targetPartition active : Int)) % 256).toNat] =
          [0x55, 0xaa, 0x02, 0xff]) := by
  have hz : (0 : Nat) ≠ targetPartition active <<< 16 :=
    Ne.symm (targetAddr_ne_zero active)
  refine ⟨?_, ?_, ?_⟩
  · unfold fu_parade_lspcon_device_write_firmware wfSteps
    rw [if_neg (by simp [hlen])]
    rw [runSteps_cons_ok _ _ _ h1, runSteps_cons_ok _ _ _ h2,
        runSteps_cons_ok _ _ _ h3, runSteps_cons_ok _ _ _ h4,
        runSteps_cons_ok _ _ _ h5, runSteps_cons_ok _ _ _ h6,
        runSteps_cons_ok _ _ _ h7,
        runSteps_cons_ok _ _ _ (by simp [hlen, hvr]),
        runSteps_cons_ok _ _ _ h8]
    exact mem_runSteps_head _ _ _ _ (by simp [flag_data])
  · intro d hd
    unfold fu_parade_lspcon_device_write_firmware at hd
    rw [if_neg (by simp [hlen])] at hd
    rcases mem_acc_or_step_of_mem_runSteps _ _ _ hd with hacc | ⟨s, hs, he⟩
    · simp at hacc
    · unfold wfSteps at hs
      simp only [List.mem_cons, List.not_mem_nil, or_false] at hs
      rcases hs with h | h | h | h | h | h | h | h | h | h | h | h | h | h | h <;>
        subst h <;> simp_all [flag_data, hz]
  · intro ht
    rw [ht]
    decide

/-- Witness for C2: a successful run with active partition 1 writes the
flag record for target partition 2, which is [0x55, 0xAA, 0x02, 0xFF]. -/
theorem lspcon_write_firmware_flag_record_witness :
    (WfEvent.flashWrite 0
        [0x55, 0xaa, targetPartition 1,
         ((1 - (targetPartition 1 : Int)) % 256).toNat] ∈
      (fu_parade_lspcon_device_write_firmware wfOracleAllOk 1
        (List.replicate FLASH_BLOCK_SIZE 0)).2)
    ∧ [0x55, 0xaa, targetPartition 1,
       ((1 - (targetPartition 1 : Int)) % 256).toNat] =
        [0x55, 0xaa, 0x02, 0xff] := by
  have h := lspcon_write_firmware_flag_record wfOracleAllOk 1
    (List.replicate FLASH_BLOCK_SIZE 0) (by simp) rfl rfl rfl rfl rfl rfl rfl
    (by simp [wfOracleAllOk, List.map_const']) rfl
  exact ⟨h.1, h.2.2 (by decide)⟩

/-- C6: for every active partition accepted by reload (1..3) the chosen
target partition is the other one — 2 when the active partition is 1,
otherwise 1, never the active partition — and the run erases and programs
the block at base address target_partition << 16; for active partition 1
that is partition 2 at 0x20000. -/
theorem lspcon_write_firmware_targets_other_partition (active : Nat)
    (hacc : reloadPartitionAccepted active = true) :
    (targetPartition active ≠ active
     ∧ targetPartition active = (if active = 1 then 2 else 1)
     ∧ targetPartition active <<< 16 = targetPartition active * 0x10000
     ∧ (active = 1 → targetPartition active = 2
         ∧ targetPartition active <<< 16 = 0x20000))
    ∧ ∀ (o : WfOracle) (fw : List Nat),
        fw.length = FLASH_BLOCK_SIZE →
        o.wrProtectDisableOk = true → o.srVolatileOk = true →
        o.srDisableBpOk = true → o.waitReadyOk = true →
        o.eraseTargetOk = true →
        (WfEvent.eraseBlock (targetPartition active <<< 16) FLASH_BLOCK_SIZE ∈
          (fu_parade_lspcon_device_write_firmware o active fw).2)
        ∧ (WfEvent.flashWrite (targetPartition active <<< 16) fw ∈
          (fu_parade_lspcon_device_write_firmware o active fw).2) := by
  have hrange : 1 ≤ active ∧ active ≤ 3 := by
    have hb := hacc
    simp [reloadPartitionAccepted] at hb
    omega
  refine ⟨⟨?_, rfl, ?_, ?_⟩, ?_⟩
  · unfold targetPartition
    split <;> omega
  · rw [Nat.shiftLeft_eq]
  · intro h1
    subst h1
    exact ⟨rfl, by decide⟩
  · intro o fw hlen g1 g2 g3 g4 g5
    constructor
    · unfold fu_parade_lspcon_device_write_firmware wfSteps
      rw [if_neg (by simp [hlen])]
      rw [runSteps_cons_ok _ _ _ g1, runSteps_cons_ok _ _ _ g2,
          runSteps_cons_ok _ _ _ g3, runSteps_cons_ok _ _ _ g4,
          runSteps_cons_ok _ _ _ g5]
      exact mem_runSteps_of_mem_acc _ _ _ (by simp [hlen])
    · unfold fu_parade_lspcon_device_write_firmware wfSteps
      rw [if_neg (by simp [hlen])]
      rw [runSteps_cons_ok _ _ _ g1, runSteps_cons_ok _ _ _ g2,
          runSteps_cons_ok _ _ _ g3, runSteps_cons_ok _ _ _ g4,
          runSteps_cons_ok _ _ _ g5]
      exact mem_runSteps_head _ _ _ _ (by simp)

/-- Witness for C6: active partition 1 is accepted, the target is
partition 2 at address 0x20000, and a concrete run programs that block. -/
theorem lspcon_write_firmware_targets_other_partition_witness :
    (targetPartition 1 ≠ 1 ∧ targetPartition 1 <<< 16 = 0x20000)
    ∧ WfEvent.flashWrite (targetPartition 1 <<< 16)
        (List.replicate FLASH_BLOCK_SIZE 0) ∈
      (fu_parade_lspcon_device_write_firmware wfOracleAllOk 1
        (List.replicate FLASH_BLOCK_SIZE 0)).2 := by
  have h := lspcon_write_firmware_targets_other_partition 1 (by decide)
  exact ⟨⟨h.1.1, (h.1.2.2.2 rfl).2⟩,
    (h.2 wfOracleAllOk (List.replicate FLASH_BLOCK_SIZE 0)
      (by simp) rfl rfl rfl rfl rfl).2⟩

/-! ## Parade LSPCON: I2C page-window address guard

This part models the bus-address discipline at the level of individual I2C
transactions.  The state carries the currently selected bus address and an
operation counter indexing the oracle; `ensure_i2c_address` (the I2C_SLAVE
ioctl) is modelled as an infallible address-latch update — the C code
issues the guard restoration unconditionally, and transport failure of the
ioctl itself is outside the model.  Data transactions succeed or fail
according to the oracle. -/

/-- Bus address of register page 2, the default target
(`I2C_ADDR_PAGE2`). -/
def I2C_ADDR_PAGE2 : Nat := 0x4a

/-- Bus address of register page 5 (`I2C_ADDR_PAGE5`). -/
def I2C_ADDR_PAGE5 : Nat := 0x4d

/-- Bus address of register page 7, the flash window
(`I2C_ADDR_PAGE7`). -/
def I2C_ADDR_PAGE7 : Nat := 0x4f

/-- Register `REG_ADDR_FLASH_ADDR_HI`. -/
def REG_ADDR_FLASH_ADDR_HI : Nat := 0x8f

/-- Register `REG_ADDR_FLASH_ADDR_LO`. -/
def REG_ADDR_FLASH_ADDR_LO : Nat := 0x8e

/-- Register `REG_ADDR_CLT2SPI`. -/
def REG_ADDR_CLT2SPI : Nat := 0x82

/-- Register `REG_ADDR_MAP_WRITE`. -/
def REG_ADDR_MAP_WRITE : Nat := 0xda

/-- Register `REG_ADDR_ACTIVE_PARTITION` on page 5. -/
def REG_ADDR_ACTIVE_PARTITION : Nat := 0x0e

/-- State of the I2C connection: the currently selected bus address and
the number of data transactions performed so far. -/
structure I2cBus where
  addr : Nat
  k : Nat
deriving DecidableEq, Repr

/-- Outcomes of the I2C data transactions: `ok n` tells whether the n-th
transaction succeeds, `rd n j` gives byte `j` returned when the n-th
transaction is a read. -/
structure I2cOracle where
  ok : Nat → Bool
  rd : Nat → Nat → Nat

/-- Model of `ensure_i2c_address`: selects the bus address. -/
def ensure_i2c_address (address : Nat) (b : I2cBus) : I2cBus :=
  { b with addr := address }

/-- Model of `lspcon_write_register`: one write transaction at the current
address. -/
def lspcon_write_register (o : I2cOracle) (reg value : Nat) (b : I2cBus) :
    Bool × I2cBus :=
  (o.ok b.k, { b with k := b.k + 1 })

/-- Model of `lspcon_read_register`: a write of the register address
followed by a one-byte read. -/
def lspcon_read_register (o : I2cOracle) (reg : Nat) (b : I2cBus) :
    Except GErr Nat × I2cBus :=
  if o.ok b.k = false then
    (.error (.transfer "failed to select register"), { b with k := b.k + 1 })
  else if o.ok (b.k + 1) = false then
    (.error (.transfer "failed to read register"), { b with k := b.k + 2 })
  else
    (.ok (o.rd (b.k + 1) 0), { b with k := b.k + 2 })

/-- Model of `lspcon_map_page`: writes the high and low page-select
registers (values truncated to bytes as by the `guint8` parameter). -/
def lspcon_map_page (o : I2cOracle) (address : Nat) (b : I2cBus) :
    Bool × I2cBus :=
  match lspcon_write_register o REG_ADDR_FLASH_ADDR_HI
      ((address >>> 16) % 256) b with
  | (false, b1) => (false, b1)
  | (true, b1) =>
    lspcon_write_register o REG_ADDR_FLASH_ADDR_LO ((address >>> 8) % 256) b1

/-- Guarded page-7 window read: the scope of the `I2cAddressGuard` in
`flash_read` — rebind to page 7, one 256-byte read transaction, restore
page 2 on scope exit whatever the outcome. -/
def page7_read (o : I2cOracle) (b : I2cBus) :
    Except GErr (Nat → Nat) × I2cBus :=
  let b1 := ensure_i2c_address I2C_ADDR_PAGE7 b
  ((if o.ok b1.k = true then .ok (o.rd b1.k)
    else .error (.transfer "failed to read page")),
   ensure_i2c_address I2C_ADDR_PAGE2 { b1 with k := b1.k + 1 })

/-- Guarded page-7 window write: the scope of the `I2cAddressGuard` in
`flash_write` — rebind to page 7, one write transaction carrying the
offset-prefixed chunk, restore page 2 on scope exit whatever the
outcome.  The chunk payload content does not influence control flow and is
elided. -/
def page7_write (o : I2cOracle) (b : I2cBus) : Bool × I2cBus :=
  let b1 := ensure_i2c_address I2C_ADDR_PAGE7 b
  (o.ok b1.k, ensure_i2c_address I2C_ADDR_PAGE2 { b1 with k := b1.k + 1 })

/-- Model of `flash_read`: page-at-a-time loop — map the page containing
the current address, read the whole 256-byte window under the page-7
guard, keep the in-range slice, and continue until `len` bytes are
collected. -/
def flash_read (o : I2cOracle) (base len : Nat) (b : I2cBus) :
    Except GErr (List Nat) × I2cBus :=
  if hl : len = 0 then (.ok [], b)
  else
    match lspcon_map_page o base b with
    | (false, b1) => (.error (.transfer "failed to map page"), b1)
    | (true, b1) =>
      match page7_read o b1 with
      | (.error e, b2) => (.error e, b2)
      | (.ok page, b2) =>
        match flash_read o (base + min len (256 - base % 256))
            (len - min len (256 - base % 256)) b2 with
        | (.ok rest, b3) =>
          (.ok ((List.range (min len (256 - base % 256))).map
            (fun j => page (base % 256 + j)) ++ rest), b3)
        | (.error e, b3) => (.error e, b3)
termination_by len
decreasing_by
  have hm : base % 256 < 256 := Nat.mod_lt base (by omega)
  omega

/-- Sequence of register writes stopping at the first failure, used for
the map-write unlock sequence of `flash_write`. -/
def regWriteSeq (o : I2cOracle) : List (Nat × Nat) → I2cBus → Bool × I2cBus
  | [], b => (true, b)
  | (reg, v) :: rest, b =>
    match lspcon_write_register o reg v b with
    | (false, b1) => (false, b1)
    | (true, b1) => regWriteSeq o rest b1

/-- Page loop of `flash_write`: map each 256-byte-aligned page and write
the chunk through the page-7 window under the guard. -/
def flash_write_pages (o : I2cOracle) (base dataLen written : Nat)
    (b : I2cBus) : Bool × I2cBus :=
  if hw : written < dataLen then
    match lspcon_map_page o (base + written) b with
    | (false, b1) => (false, b1)
    | (true, b1) =>
      match page7_write o b1 with
      | (false, b2) => (false, b2)
      | (true, b2) => flash_write_pages o base dataLen (written + 256) b2
  else (true, b)
termination_by dataLen - written
decreasing_by omega

/-- Model of `flash_write`: magic unlock sequence to `REG_ADDR_MAP_WRITE`,
clt2SPI reset pulse, the page loop, then re-lock of map writes. -/
def flash_write (o : I2cOracle) (base dataLen : Nat) (b : I2cBus) :
    Bool × I2cBus :=
  match regWriteSeq o
      [(REG_ADDR_MAP_WRITE, 0xaa), (REG_ADDR_MAP_WRITE, 0x55),
       (REG_ADDR_MAP_WRITE, 0x50), (REG_ADDR_MAP_WRITE, 0x41),
       (REG_ADDR_MAP_WRITE, 0x52), (REG_ADDR_MAP_WRITE, 0x44)] b with
  | (false, b1) => (false, b1)
  | (true, b1) =>
    match lspcon_write_register o REG_ADDR_CLT2SPI 0x20 b1 with
    | (false, b2) => (false, b2)
    | (true, b2) =>
      match lspcon_write_register o REG_ADDR_CLT2SPI 0 b2 with
      | (false, b3) => (false, b3)
      | (true, b3) =>
        match flash_write_pages o base dataLen 0 b3 with
        | (false, b4) => (false, b4)
        | (true, b4) => lspcon_write_register o REG_ADDR_MAP_WRITE 0 b4

/-- Model of `probe_active_flash_partition`: read the active-partition
register at page 5 under the address guard, restoring page 2 on scope
exit whatever the outcome. -/
def probe_active_flash_partition (o : I2cOracle) (b : I2cBus) :
    Except GErr Nat × I2cBus :=
  let r := lspcon_read_register o REG_ADDR_ACTIVE_PARTITION
    (ensure_i2c_address I2C_ADDR_PAGE5 b)
  (r.1, ensure_i2c_address I2C_ADDR_PAGE2 r.2)

/-- Helper: transfers the address of the second component through a pair
equation. -/
theorem snd_addr_of_eq {α : Type} {p : α × I2cBus} {x : α} {c : I2cBus}
    (h : p = (x, c)) : c.addr = p.2.addr := by
  rw [h]

/-- Helper: a register write does not change the selected bus address. -/
theorem lspcon_write_register_addr (o : I2cOracle) (reg value : Nat)
    (b : I2cBus) : (lspcon_write_register o reg value b).2.addr = b.addr :=
  rfl

/-- Helper: mapping a page writes registers only and keeps the selected
bus address. -/
theorem lspcon_map_page_addr (o : I2cOracle) (address : Nat) (b : I2cBus) :
    (lspcon_map_page o address b).2.addr = b.addr := by
  unfold lspcon_map_page
  split
  · next b1 heq =>
    have h1 : b1.addr = b.addr := by
      rw [snd_addr_of_eq heq, lspcon_write_register_addr]
    simpa using h1
  · next b1 heq =>
    have h1 : b1.addr = b.addr := by
      rw [snd_addr_of_eq heq, lspcon_write_register_addr]
    rw [lspcon_write_register_addr, h1]

/-- Helper: the guarded page-7 read always leaves page 2 selected. -/
theorem page7_read_addr (o : I2cOracle) (b : I2cBus) :
    (page7_read o b).2.addr = I2C_ADDR_PAGE2 :=
  rfl

/-- Helper: the guarded page-7 write always leaves page 2 selected. -/
theorem page7_write_addr (o : I2cOracle) (b : I2cBus) :
    (page7_write o b).2.addr = I2C_ADDR_PAGE2 :=
  rfl

/-- Helper: a register-write sequence keeps the selected bus address. -/
theorem regWriteSeq_addr (o : I2cOracle) :
    ∀ (l : List (Nat × Nat)) (b : I2cBus),
    (regWriteSeq o l b).2.addr = b.addr := by
  intro l
  induction l with
  | nil => intro b; rfl
  | cons hd rest ih =>
    intro b
    obtain ⟨reg, v⟩ := hd
    rw [regWriteSeq]
    split
    · next b1 heq =>
      have h1 : b1.addr = b.addr := by
        rw [snd_addr_of_eq heq, lspcon_write_register_addr]
      simpa using h1
    · next b1 heq =>
      have h1 : b1.addr = b.addr := by
        rw [snd_addr_of_eq heq, lspcon_write_register_addr]
      rw [ih b1, h1]

/-- Helper: `flash_read` leaves the default page-2 address selected on
every path, success or error. -/
theorem flash_read_addr (o : I2cOracle) :
    ∀ (len base : Nat) (b : I2cBus), b.addr = I2C_ADDR_PAGE2 →
    (flash_read o base len b).2.addr = I2C_ADDR_PAGE2 := by
  intro len
  induction len using Nat.strong_induction_on with
  | _ len ih =>
    intro base b hb
    rw [flash_read.eq_def]
    split
    · exact hb
    · next hl =>
      split
      · next b1 heq =>
        have h1 : b1.addr = b.addr := by
          rw [snd_addr_of_eq heq, lspcon_map_page_addr]
        simpa [h1] using hb
      · next b1 heq =>
        split
        · next e b2 heq2 =>
          have h2 : b2.addr = I2C_ADDR_PAGE2 := by
            rw [snd_addr_of_eq heq2, page7_read_addr]
          simpa using h2
        · next page b2 heq2 =>
          have h2 : b2.addr = I2C_ADDR_PAGE2 := by
            rw [snd_addr_of_eq heq2, page7_read_addr]
          have hlt : len - min len (256 - base % 256) < len := by
            omega
          have h3 := ih _ hlt (base + min len (256 - base % 256)) b2 h2
          split
          · next rest b3 heq3 =>
            have h4 : b3.addr = I2C_ADDR_PAGE2 := by
              rw [snd_addr_of_eq heq3]
              exact h3
            simpa using h4
          · next e b3 heq3 =>
            have h4 : b3.addr = I2C_ADDR_PAGE2 := by
              rw [snd_addr_of_eq heq3]
              exact h3
            simpa using h4

/-- Helper: the page loop of `flash_write` leaves the default page-2
address selected on every path. -/
theorem flash_write_pages_addr (o : I2cOracle) (base dataLen : Nat) :
    ∀ (fuel written : Nat), dataLen - written ≤ fuel →
    ∀ b : I2cBus, b.addr = I2C_ADDR_PAGE2 →
    (flash_write_pages o base dataLen written b).2.addr =
      I2C_ADDR_PAGE2 := by
  intro fuel
  induction fuel with
  | zero =>
    intro written hw b hb
    rw [flash_write_pages.eq_def, dif_neg (by omega)]
    exact hb
  | succ f ih =>
    intro written hw b hb
    rw [flash_write_pages.eq_def]
    by_cases hlt : written < dataLen
    · rw [dif_pos hlt]
      split
      · next b1 heq =>
        have h1 : b1.addr = b.addr := by
          rw [snd_addr_of_eq heq, lspcon_map_page_addr]
        simpa [h1] using hb
      · next b1 heq =>
        split
        · next b2 heq2 =>
          have h2 : b2.addr = I2C_ADDR_PAGE2 := by
            rw [snd_addr_of_eq heq2, page7_write_addr]
          simpa using h2
        · next b2 heq2 =>
          have h2 : b2.addr = I2C_ADDR_PAGE2 := by
            rw [snd_addr_of_eq heq2, page7_write_addr]
          exact ih (written + 256) (by omega) b2 h2
    · rw [dif_neg hlt]
      exact hb

/-- Helper: `flash_write` leaves the default page-2 address selected on
every path. -/
theorem flash_write_addr (o : I2cOracle) (base dataLen : Nat) (b : I2cBus)
    (hb : b.addr = I2C_ADDR_PAGE2) :
    (flash_write o base dataLen b).2.addr = I2C_ADDR_PAGE2 := by
  unfold flash_write
  split
  · next b1 heq =>
    have h1 : b1.addr = b.addr := by
      rw [snd_addr_of_eq heq, regWriteSeq_addr]
    simpa [h1] using hb
  · next b1 heq =>
    have h1 : b1.addr = b.addr := by
      rw [snd_addr_of_eq heq, regWriteSeq_addr]
    split
    · next b2 heq2 =>
      have h2 : b2.addr = b1.addr := by
        rw [snd_addr_of_eq heq2, lspcon_write_register_addr]
      simp [h2, h1, hb]
    · next b2 heq2 =>
      have h2 : b2.addr = b1.addr := by
        rw [snd_addr_of_eq heq2, lspcon_write_register_addr]
      split
      · next b3 heq3 =>
        have h3 : b3.addr = b2.addr := by
          rw [snd_addr_of_eq heq3, lspcon_write_register_addr]
        simp [h3, h2, h1, hb]
      · next b3 heq3 =>
        have h3 : b3.addr = b2.addr := by
          rw [snd_addr_of_eq heq3, lspcon_write_register_addr]
        have hb3 : b3.addr = I2C_ADDR_PAGE2 := by
          rw [h3, h2, h1, hb]
        split
        · next b4 heq4 =>
          have h4 : b4.addr = I2C_ADDR_PAGE2 := by
            rw [snd_addr_of_eq heq4]
            exact flash_write_pages_addr o base dataLen dataLen 0
              (by omega) b3 hb3
          simpa using h4
        · next b4 heq4 =>
          have h4 : b4.addr = I2C_ADDR_PAGE2 := by
            rw [snd_addr_of_eq heq4]
            exact flash_write_pages_addr o base dataLen dataLen 0
              (by omega) b3 hb3
          rw [lspcon_write_register_addr, h4]

/-- Helper: the active-partition probe restores page 2 on scope exit. -/
theorem probe_active_flash_partition_addr (o : I2cOracle) (b : I2cBus) :
    (probe_active_flash_partition o b).2.addr = I2C_ADDR_PAGE2 :=
  rfl

/-- C3: the operations that rebind the bus address away from the default
page-2 target — the page-7 window read and write loops and the page-5
active-partition probe — all restore the default address before
returning, both on success and on every error path out of the guarded
scope. -/
theorem lspcon_address_guard_restores_default (o : I2cOracle)
    (base len dataLen : Nat) (b : I2cBus)
    (hb : b.addr = I2C_ADDR_PAGE2) :
    ((flash_read o base len b).2.addr = I2C_ADDR_PAGE2)
    ∧ ((flash_write o base dataLen b).2.addr = I2C_ADDR_PAGE2)
    ∧ ((probe_active_flash_partition o b).2.addr = I2C_ADDR_PAGE2) :=
  ⟨flash_read_addr o len base b hb, flash_write_addr o base dataLen b hb,
   probe_active_flash_partition_addr o b⟩

/-- Oracle under which every I2C transaction succeeds and reads return
zero bytes. -/
def i2cOracleW : I2cOracle :=
  { ok := fun _ => true, rd := fun _ _ => 0 }

/-- Witness for C3: a concrete read, write and probe starting from the
default address all end with the default address selected. -/
theorem lspcon_address_guard_restores_default_witness :
    ((flash_read i2cOracleW 0x20000 300 { addr := 0x4a, k := 0 }).2.addr =
      I2C_ADDR_PAGE2)
    ∧ ((flash_write i2cOracleW 0x20000 300
        { addr := 0x4a, k := 0 }).2.addr = I2C_ADDR_PAGE2)
    ∧ ((probe_active_flash_partition i2cOracleW
        { addr := 0x4a, k := 0 }).2.addr = I2C_ADDR_PAGE2) :=
  lspcon_address_guard_restores_default i2cOracleW 0x20000 300 300
    { addr := 0x4a, k := 0 } rfl

/-! ## Setup and reload: the firmware-version query -/

/-- Model of `fu_goodixfp_device_setup`: attempts the version query; on
success it stores the version, on failure it logs a warning and leaves the
version unset — the function returns TRUE on both paths. -/
def fu_goodixfp_device_setup (versionQuery : Except GErr String) :
    Bool × Option String :=
  match versionQuery with
  | .ok v => (true, some v)
  | .error _ => (true, none)

/-- Outcomes of the steps of `fu_parade_lspcon_device_reload`, in program
order: active-partition probe and the probed value, presence of the
configured DP aux device name, number of matching aux devices, physical-id
assignment, device open, OUI read and its value, and the DPCD version read
with the two version bytes. -/
structure ReloadOracle where
  probeOk : Bool
  probedPartition : Nat
  auxNameSet : Bool
  auxMatches : Nat
  physIdOk : Bool
  lockerOk : Bool
  ouiReadOk : Bool
  oui : Nat
  versionReadOk : Bool
  versionMajor : Nat
  versionMinor : Nat

/-- Model of `fu_parade_lspcon_device_reload`: mirrors the early-return
chain of the C function; on success the returned pair is the major/minor
version written into the device. -/
def fu_parade_lspcon_device_reload (o : ReloadOracle) :
    Except GErr (Nat × Nat) :=
  if o.probeOk = false then
    .error (.transfer "failed to read active partition")
  else if o.probedPartition < 1 ∨ o.probedPartition > 3 then
    .error (.notSupported "unexpected active flash partition")
  else if o.auxNameSet = false then
    .error (.notSupported "no DP aux device specified")
  else if o.auxMatches = 0 then
    .error (.notSupported "failed to locate a DP aux device")
  else if o.auxMatches > 1 then
    .error (.notSupported "found multiple DP aux devices")
  else if o.physIdOk = false then
    .error (.transfer "failed to set physical id")
  else if o.lockerOk = false then
    .error (.transfer "failed to open aux device")
  else if o.ouiReadOk = false then
    .error (.transfer "failed to read OUI")
  else if o.oui ≠ 0x001CF8 then
    .error (.notSupported "device OUI does not match expected value")
  else if o.versionReadOk = false then
    .error (.transfer "failed to read version")
  else
    .ok (o.versionMajor, o.versionMinor)

/-- Reload run in which every step succeeds except the DPCD version
read. -/
def reloadOracleVersionFail : ReloadOracle where
  probeOk := true
  probedPartition := 1
  auxNameSet := true
  auxMatches := 1
  physIdOk := true
  lockerOk := true
  ouiReadOk := true
  oui := 0x001CF8
  versionReadOk := false
  versionMajor := 0
  versionMinor := 0

/-- Counterexample to C9: in the parade lspcon reload a failing DPCD
version read fails the whole reload, contradicting the claim that a
version-read failure never fails the setup/reload operation. -/
theorem parade_reload_version_failure_fails :
    reloadOracleVersionFail.versionReadOk = false
    ∧ fu_parade_lspcon_device_reload reloadOracleVersionFail =
        .error (.transfer "failed to read version") := by
  constructor
  · rfl
  · rfl

/-- C9 (amended): a version-query failure during the goodix fingerprint
setup leaves the version unset and setup still succeeds, whereas the
parade lspcon reload never succeeds when its DPCD version read fails. -/
theorem version_failure_setup_reload_amended :
    (∀ e : GErr, fu_goodixfp_device_setup (.error e) = (true, none))
    ∧ (∀ v : String, fu_goodixfp_device_setup (.ok v) = (true, some v))
    ∧ (∀ o : ReloadOracle, o.versionReadOk = false →
        ∀ ver : Nat × Nat, fu_parade_lspcon_device_reload o ≠ .ok ver) := by
  refine ⟨fun e => rfl, fun v => rfl, fun o hv ver hcon => ?_⟩
  unfold fu_parade_lspcon_device_reload at hcon
  split_ifs at hcon

/-- Witness for C9 (amended): a concrete failed version query leaves the
goodix version unset with setup succeeding, and the concrete failed
reload run does not succeed. -/
theorem version_failure_setup_reload_amended_witness :
    fu_goodixfp_device_setup (.error (.transfer "failed to reply")) =
      (true, none)
    ∧ fu_parade_lspcon_device_reload reloadOracleVersionFail ≠ .ok (0, 0) :=
  ⟨version_failure_setup_reload_amended.1 (.transfer "failed to reply"),
   version_failure_setup_reload_amended.2.2 reloadOracleVersionFail rfl
     (0, 0)⟩
